import Mathlib

/-!
# Verification of the Base-chain sniper monitor's token state engine

A shallow embedding, in Lean 4, of the core of the monitor found in
`src/main.py` (with the older variant `src/data_manager.py`): the per-token
price ledger (`TokenDataManager`), the return/multiple calculator, the
price-multiple crossing detection inside `analyze_token_with_risk`, the risk
scorer (`RiskScorer`), and the alert cooldown manager (`AlertManager`).

Modelling conventions:
* Python `float` prices, liquidities, taxes and timestamps are modelled as
  `ℚ`; timestamps are seconds (the code compares `datetime` values, which
  is the same ordering).
* The JSON ledger document (`data["tokens"]`) is an association list from
  token address to `TokenRecord`; `load_data`/`save_data` become explicit
  state passing, so every `TokenDataManager` method takes the store and
  returns the (possibly unchanged) store.
* Python `round(x, 2)` is round-half-to-even on `x * 100`.
* `AlertManager.sent_alerts` is initialized as a Python `set()` but is
  indexed and item-assigned like a `dict`; the embedding keeps both shapes
  (`PySentAlerts`) and a `TypeError` result (`PyResult.typeError`) so that
  the actual runtime behaviour is representable.
-/

namespace SniperMonitor

/-- One entry of `price_history`: `{timestamp, price, liquidity}`. -/
structure PriceSample where
  timestamp : ℚ
  price : ℚ
  liquidity : ℚ
deriving Repr, DecidableEq

/-- The per-token record kept in `data["tokens"][token_address]`
(`src/main.py`, `record_token_price`). `current_price` and `last_updated`
are assigned on every call of `record_token_price`, including the call that
creates the record, so they are plain fields here. -/
structure TokenRecord where
  symbol : String
  first_seen : ℚ
  price_history : List PriceSample
  highest_price : ℚ
  lowest_price : ℚ
  initial_price : ℚ
  initial_liquidity : ℚ
  price_alerts_sent : List ℤ
  current_price : ℚ
  last_updated : ℚ
deriving Repr, DecidableEq

/-- The ledger document: token address to record, as a Python dict. -/
abbrev Store := List (String × TokenRecord)

/-- Python dict read `d.get(k)` / `k in d` on an association list. -/
def lookupEntry {β : Type} : List (String × β) → String → Option β
  | [], _ => none
  | (k, v) :: rest, key => if k = key then some v else lookupEntry rest key

/-- Python dict write `d[k] = v`: replace in place, else append. -/
def setEntry {β : Type} : List (String × β) → String → β → List (String × β)
  | [], key, v => [(key, v)]
  | (k, w) :: rest, key, v =>
      if k = key then (key, v) :: rest else (k, w) :: setEntry rest key v

/-- The last `n` elements of a list (`l[-n:]` when `n ≤ len(l)`). -/
def lastN {α : Type} (n : ℕ) (l : List α) : List α := l.drop (l.length - n)

/-- The history cap of `record_token_price`: `if len(h) > 100: h = h[-100:]`. -/
def trimHist (l : List PriceSample) : List PriceSample :=
  if 100 < l.length then l.drop (l.length - 100) else l

/-- `TokenDataManager.record_token_price` (`src/main.py` lines 47-82): create
the record on first sight of the address, append the sample, cap the history
at 100, update extrema and current fields, save. The current wall-clock time
(`datetime.now()`) is the explicit argument `now`. -/
def record_token_price (store : Store) (token_address symbol : String)
    (price liquidity now : ℚ) : TokenRecord × Store :=
  let td0 : TokenRecord :=
    match lookupEntry store token_address with
    | some td => td
    | none =>
        { symbol := symbol
          first_seen := now
          price_history := []
          highest_price := price
          lowest_price := price
          initial_price := price
          initial_liquidity := liquidity
          price_alerts_sent := []
          current_price := price
          last_updated := now }
  let td : TokenRecord :=
    { td0 with
      price_history := trimHist (td0.price_history ++ [⟨now, price, liquidity⟩])
      highest_price := max td0.highest_price price
      lowest_price := min td0.lowest_price price
      current_price := price
      last_updated := now }
  (td, setEntry store token_address td)

/-- Python `round(x)` to an integer: round half to even (banker's rounding). -/
def pyRound (q : ℚ) : ℤ :=
  let f := ⌊q⌋
  let r := q - (f : ℚ)
  if r < 1/2 then f
  else if 1/2 < r then f + 1
  else if f % 2 = 0 then f else f + 1

/-- Python `round(x, 2)`. -/
def round2 (q : ℚ) : ℚ := (pyRound (q * 100) : ℚ) / 100

/-- The dict returned by `TokenDataManager.calculate_returns` when it is not
empty. -/
structure ReturnsDict where
  total_return : ℚ
  return_24h : ℚ
  initial_price : ℚ
  current_price : ℚ
  price_change : ℚ
  price_multiple : ℚ
  highest_return : ℚ
  current_liquidity : ℚ
deriving Repr, DecidableEq

/-- `TokenDataManager.calculate_returns` (`src/main.py` lines 84-120): empty
dict (`none`) when the address is unknown or `initial_price == 0`; otherwise
total return, 24h return anchored at the newest sample older than 24h
(falling back to `initial_price`), price multiple, extrema return and
current liquidity. It performs no save, so the store comes back unchanged. -/
def calculate_returns (store : Store) (token_address : String) (now : ℚ) :
    Option ReturnsDict × Store :=
  match lookupEntry store token_address with
  | none => (none, store)
  | some td =>
      let initial_price := td.initial_price
      let current_price := td.current_price
      if initial_price = 0 then (none, store)
      else
        let total_return := ((current_price - initial_price) / initial_price) * 100
        let twenty_four_hours_ago := now - 24 * 3600
        let price_24h_ago :=
          match td.price_history.reverse.find?
              (fun p => decide (p.timestamp ≤ twenty_four_hours_ago)) with
          | some p => p.price
          | none => initial_price
        let return_24h :=
          if 0 < price_24h_ago then
            ((current_price - price_24h_ago) / price_24h_ago) * 100
          else 0
        (some
          { total_return := round2 total_return
            return_24h := round2 return_24h
            initial_price := initial_price
            current_price := current_price
            price_change := current_price - initial_price
            price_multiple :=
              if 0 < initial_price then current_price / initial_price else 1
            highest_return :=
              round2 (((td.highest_price - initial_price) / initial_price) * 100)
            current_liquidity :=
              match td.price_history.getLast? with
              | some p => p.liquidity
              | none => 0 }, store)

/-- `TokenDataManager.get_price_alerts_sent` (`src/main.py` lines 122-127):
the record's `price_alerts_sent`, `[]` for an unknown address; no save. -/
def get_price_alerts_sent (store : Store) (token_address : String) :
    List ℤ × Store :=
  match lookupEntry store token_address with
  | some td => (td.price_alerts_sent, store)
  | none => ([], store)

/-- `AlertManager.should_send_price_alert` (`src/main.py` lines 351-355):
send iff this multiple was not sent before for this token. -/
def should_send_price_alert (store : Store) (token_address : String)
    (multiple : ℤ) : Bool :=
  decide (multiple ∉ (get_price_alerts_sent store token_address).1)

/-- The integers of Python `range(lo, hi)`. -/
def intRange (lo hi : ℤ) : List ℤ :=
  (List.range (hi - lo).toNat).map (fun (i : ℕ) => lo + (i : ℤ))

/-- The `target_multiples` computation of `analyze_token_with_risk`
(`src/main.py` lines 574-582): `next_multiple = floor(current_multiple) + 1`;
collect every `multiple` in `range(2, next_multiple + 1)` with
`current_multiple >= multiple`. -/
def target_multiples (current_multiple : ℚ) : List ℤ :=
  (intRange 2 ((⌊current_multiple⌋ + 1) + 1)).filter
    (fun multiple => decide ((multiple : ℚ) ≤ current_multiple))

/-- The milestone crossing detection of `analyze_token_with_risk`
(`src/main.py` lines 574-588): the target multiples that pass
`should_send_price_alert`, i.e. that are not in the token's
`price_alerts_sent` set. -/
def crossings (store : Store) (token_address : String)
    (current_multiple : ℚ) : List ℤ :=
  (target_multiples current_multiple).filter
    (fun multiple => should_send_price_alert store token_address multiple)

/-! ## AlertManager risk-alert cooldown (`src/main.py` lines 323-349)

`__init__` sets `self.sent_alerts = set()`, yet `should_send_risk_alert`
reads `self.sent_alerts[alert_key]` and assigns
`self.sent_alerts[alert_key] = current_time`, which are dict operations: on
a `set` they raise `TypeError`. The embedding therefore keeps the value in
either shape and returns a `PyResult`. -/

/-- `self.sent_alerts`: the Python value is a `set` (as initialized) or a
`dict` from alert key to last-alert timestamp (as every use assumes). -/
inductive PySentAlerts where
  | pyset (elems : List String)
  | pydict (entries : List (String × ℚ))
deriving Repr, DecidableEq

/-- A Python call result: a value, or an uncaught `TypeError`. -/
inductive PyResult (α : Type) where
  | ok (val : α)
  | typeError (msg : String)
deriving Repr, DecidableEq

/-- `AlertManager.__init__`: `self.sent_alerts = set()`. -/
def alertManagerInit : PySentAlerts := .pyset []

/-- `AlertManager.__init__`: `self.alert_cooldown = 3600` seconds. -/
def alert_cooldown : ℚ := 3600

/-- The composite key `f"risk_{token_address}_{risk_score}"`. -/
def alertKey (token_address : String) (risk_score : ℤ) : String :=
  "risk_" ++ token_address ++ "_" ++ toString risk_score

/-- `AlertManager.should_send_risk_alert` (`src/main.py` lines 328-349):
scores `<= 6` are suppressed outright; above that the code consults and
updates `self.sent_alerts` as a dict, which on the actual `set` value
raises `TypeError` (`self.sent_alerts[alert_key]` on the membership branch,
`self.sent_alerts[alert_key] = current_time` on both write branches). -/
def should_send_risk_alert (st : PySentAlerts) (token_address : String)
    (risk_score : ℤ) (now : ℚ) : PyResult (Bool × PySentAlerts) :=
  if risk_score ≤ 6 then .ok (false, st)
  else
    let key := alertKey token_address risk_score
    match st with
    | .pyset elems =>
        if key ∈ elems then .typeError "set object is not subscriptable"
        else .typeError "set object does not support item assignment"
    | .pydict entries =>
        match lookupEntry entries key with
        | some last =>
            if now - last < alert_cooldown then .ok (false, .pydict entries)
            else .ok (true, .pydict (setEntry entries key now))
        | none => .ok (true, .pydict (setEntry entries key now))

/-! ## RiskScorer (`src/main.py` lines 176-299) -/

/-- The fields of the per-token dict that `RiskScorer` reads (the signal
bundle), plus `liquidity`, which the analysis dict always carries but the
scorer never consults. -/
structure TokenSignals where
  liquidity : ℚ
  verified : Bool
  buy_tax : ℚ
  sell_tax : ℚ
  is_honeypot : Bool
  lp_lock_days : ℚ
  wallet_age_hours : ℚ
  suspicious_source : Bool
  has_rug_history : Bool
  has_community : Bool
  from_cex : Bool
  top10_holders_percent : ℚ
deriving Repr, DecidableEq

/-- `RiskScorer.check_tax_rate`: +3 when a tax exceeds 5%, +1 above 3%. -/
def check_tax_rate (t : TokenSignals) : ℤ :=
  if 5/100 < t.buy_tax ∨ 5/100 < t.sell_tax then 3
  else if 3/100 < t.buy_tax ∨ 3/100 < t.sell_tax then 1
  else 0

/-- `RiskScorer.check_contract_verified`. -/
def check_contract_verified (t : TokenSignals) : Bool := t.verified

/-- `RiskScorer.check_honeypot`. -/
def check_honeypot (t : TokenSignals) : Bool := t.is_honeypot

/-- `RiskScorer.check_lp_lock`: 0 days +2, under 30 days +1. -/
def check_lp_lock (t : TokenSignals) : ℤ :=
  if t.lp_lock_days = 0 then 2
  else if t.lp_lock_days < 30 then 1
  else 0

/-- `RiskScorer.check_wallet_age`: deployer wallet younger than 6 hours. -/
def check_wallet_age (t : TokenSignals) : Bool :=
  decide (t.wallet_age_hours < 6)

/-- `RiskScorer.check_fund_source`. -/
def check_fund_source (t : TokenSignals) : Bool := t.suspicious_source

/-- `RiskScorer.check_deployer_history`. -/
def check_deployer_history (t : TokenSignals) : Bool := t.has_rug_history

/-- `RiskScorer.check_verified_community`. -/
def check_verified_community (t : TokenSignals) : Bool :=
  t.verified && t.has_community

/-- `RiskScorer.check_cex_source`. -/
def check_cex_source (t : TokenSignals) : Bool := t.from_cex

/-- `RiskScorer.check_holder_distribution`: top-10 holders under 20%. -/
def check_holder_distribution (t : TokenSignals) : Bool :=
  decide (t.top10_holders_percent < 20)

/-- The body of `RiskScorer.calculate_risk_score` before the final clamp:
each numbered block contributes its increment (or decrement) to
`risk_score` and its appended strings to `self.risk_reasons`, in source
order. The pre-clamp score and the reason list are returned together. -/
def risk_eval (t : TokenSignals) : ℤ × List String :=
  let r1 : ℤ × List String :=
    if check_contract_verified t then (0, []) else (2, ["❌ 合约未验证"])
  let tax_risk := check_tax_rate t
  let r2 : ℤ × List String :=
    if 0 < tax_risk then
      (tax_risk, if tax_risk = 3 then ["⚠️ 买卖税 > 5%"] else [])
    else (0, [])
  let r3 : ℤ × List String :=
    if check_honeypot t then (5, ["🚫 Honeypot检测失败"]) else (0, [])
  let lp_risk := check_lp_lock t
  let r4 : ℤ × List String :=
    if 0 < lp_risk then (lp_risk, ["🔓 LP锁仓时间短或无锁仓"]) else (0, [])
  let r5 : ℤ × List String :=
    if check_wallet_age t then (2, ["🆕 部署钱包 < 6小时"]) else (0, [])
  let r6 : ℤ × List String :=
    if check_fund_source t then (3, ["💸 资金来源可疑"]) else (0, [])
  let r7 : ℤ × List String :=
    if check_deployer_history t then (4, ["👤 部署者有不良记录"]) else (0, [])
  let r8 : ℤ × List String :=
    if check_verified_community t then (-2, ["✅ 合约已验证且有社群"]) else (0, [])
  let r9 : ℤ × List String :=
    if check_cex_source t then (-1, ["🏦 资金来自CEX"]) else (0, [])
  let r10 : ℤ × List String :=
    if check_holder_distribution t then (-1, ["📊 持仓分布良好"]) else (0, [])
  (r1.1 + r2.1 + r3.1 + r4.1 + r5.1 + r6.1 + r7.1 + r8.1 + r9.1 + r10.1,
   r1.2 ++ r2.2 ++ r3.2 ++ r4.2 ++ r5.2 ++ r6.2 ++ r7.2 ++ r8.2 ++ r9.2 ++ r10.2)

/-- `RiskScorer.calculate_risk_score`: the accumulated score, clamped to a
minimum of 0 by the final `max(risk_score, 0)`. -/
def calculate_risk_score (t : TokenSignals) : ℤ :=
  max (risk_eval t).1 0

/-- `self.risk_reasons` after `calculate_risk_score`. -/
def risk_reasons (t : TokenSignals) : List String :=
  (risk_eval t).2

/-! ## Shared lemmas about the association-list dict and integer ranges -/

theorem lookupEntry_setEntry_self {β : Type} (l : List (String × β)) (k : String) (v : β) :
    lookupEntry (setEntry l k v) k = some v := by
  induction l with
  | nil => simp [setEntry, lookupEntry]
  | cons hd tl ih =>
      obtain ⟨k1, v1⟩ := hd
      by_cases h : k1 = k
      · simp [setEntry, h, lookupEntry]
      · simp [setEntry, h, lookupEntry, ih]

theorem mem_intRange {lo hi m : ℤ} : m ∈ intRange lo hi ↔ lo ≤ m ∧ m < hi := by
  unfold intRange
  simp only [List.mem_map, List.mem_range]
  constructor
  · rintro ⟨i, hlt, rfl⟩
    omega
  · rintro ⟨h1, h2⟩
    exact ⟨(m - lo).toNat, by omega, by omega⟩

theorem pairwise_intRange (lo hi : ℤ) : (intRange lo hi).Pairwise (· < ·) := by
  unfold intRange
  rw [List.pairwise_map]
  exact (List.pairwise_lt_range _).imp (by omega)

theorem mem_target_multiples {cm : ℚ} {m : ℤ} :
    m ∈ target_multiples cm ↔ 2 ≤ m ∧ m ≤ ⌊cm⌋ := by
  unfold target_multiples
  simp only [List.mem_filter, mem_intRange, decide_eq_true_eq]
  rw [show ((m : ℚ) ≤ cm ↔ m ≤ ⌊cm⌋) from Int.le_floor.symm]
  omega

/-- C1: for every ledger state and every current multiple, the crossing
detection returns exactly the integers of `[2, floor(current_multiple)]`
that are not in the token's notified set, in strictly increasing order; in
particular, a fresh record (empty notified set) at multiple 5.7 yields
`[2, 3, 4, 5]` in one call. -/
theorem crossings_characterization :
    (∀ (store : Store) (addr : String) (cm : ℚ) (m : ℤ),
        m ∈ crossings store addr cm ↔
          2 ≤ m ∧ m ≤ ⌊cm⌋ ∧ m ∉ (get_price_alerts_sent store addr).1)
    ∧ (∀ (store : Store) (addr : String) (cm : ℚ),
        (crossings store addr cm).Pairwise (· < ·))
    ∧ crossings (record_token_price [] "0xT" "TKN" 1 500 0).2 "0xT" (57/10)
        = [2, 3, 4, 5] := by
  refine ⟨fun store addr cm m => ?_, fun store addr cm => ?_, ?_⟩
  · unfold crossings
    simp only [List.mem_filter, mem_target_multiples, should_send_price_alert,
      decide_eq_true_eq]
    tauto
  · exact List.Pairwise.filter _ ((pairwise_intRange _ _).filter _)
  · have hsent : (get_price_alerts_sent (record_token_price [] "0xT" "TKN" 1 500 0).2 "0xT").1 = [] := rfl
    have hfloor : ⌊(57/10 : ℚ)⌋ = 5 := by norm_num
    unfold crossings target_multiples
    rw [hfloor]
    rw [show intRange 2 (5 + 1 + 1) = [2, 3, 4, 5, 6] from rfl]
    simp only [should_send_price_alert, hsent, List.not_mem_nil, not_false_eq_true,
      List.filter_cons, List.filter_nil]
    norm_num



/-- C2 (code bug): the very first risk-alert cooldown check on a fresh
`AlertManager`, with a score above the reporting threshold, does not return
true: `sent_alerts` is a `set` and the dict-style write raises `TypeError`. -/
theorem risk_alert_first_call_type_error :
    should_send_risk_alert alertManagerInit "0xabc" 10 0 =
      .typeError "set object does not support item assignment" := rfl

/-- C9: a risk-alert cooldown check with score at most 6 is suppressed
before any cooldown state is consulted or mutated, whatever the process
state; hence only scores strictly above 6 can ever be allowed. -/
theorem low_score_alert_suppressed (st : PySentAlerts) (token_address : String)
    (risk_score : ℤ) (now : ℚ) (h : risk_score ≤ 6) :
    should_send_risk_alert st token_address risk_score now = .ok (false, st) := by
  unfold should_send_risk_alert
  simp [h]

/-- Witness for `low_score_alert_suppressed` at score 5 on a fresh manager. -/
theorem low_score_alert_suppressed_witness :
    should_send_risk_alert alertManagerInit "0xdead" 5 7 =
      .ok (false, alertManagerInit) :=
  low_score_alert_suppressed alertManagerInit "0xdead" 5 7 (by norm_num)

/-- A ledger whose only token was first observed at price zero. -/
def zeroFirstStore : Store := (record_token_price [] "0xZ" "ZZZ" 0 50 0).2

/-- C3 counterexample: after a first observation at price 0, `initial_price`
is already set (to 0), and a later non-zero sample (price 5) does not set
it: it stays 0, contradicting "remains unset until a non-zero sample
arrives" and "set from the first non-zero observation". -/
theorem initial_price_zero_sticks :
    (record_token_price zeroFirstStore "0xZ" "ZZZ" 5 60 1).1.initial_price = 0 ∧
    (record_token_price zeroFirstStore "0xZ" "ZZZ" 5 60 1).1.initial_price ≠ 5 := by
  have h : (record_token_price zeroFirstStore "0xZ" "ZZZ" 5 60 1).1.initial_price = 0 := rfl
  refine ⟨h, ?_⟩
  rw [h]
  norm_num

/-- C3 (amended): `initial_price` and `initial_liquidity` are fixed at
record creation from the first observation — zero or not — and no later
upsert modifies them; the upserted record is what the ledger then holds. -/
theorem initial_fields_set_once (store : Store) (token_address symbol : String)
    (price liquidity now : ℚ) :
    (∀ td0, lookupEntry store token_address = some td0 →
        (record_token_price store token_address symbol price liquidity now).1.initial_price
            = td0.initial_price ∧
        (record_token_price store token_address symbol price liquidity now).1.initial_liquidity
            = td0.initial_liquidity)
    ∧ (lookupEntry store token_address = none →
        (record_token_price store token_address symbol price liquidity now).1.initial_price
            = price ∧
        (record_token_price store token_address symbol price liquidity now).1.initial_liquidity
            = liquidity)
    ∧ lookupEntry (record_token_price store token_address symbol price liquidity now).2
        token_address
      = some (record_token_price store token_address symbol price liquidity now).1 := by
  refine ⟨fun td0 h => ?_, fun h => ?_, ?_⟩
  · simp [record_token_price, h]
  · simp [record_token_price, h]
  · exact lookupEntry_setEntry_self store token_address _

/-- A signal bundle with low liquidity (1000 < 5000) and no firing penalty
or mitigation signals. -/
def lowLiquidityBundle : TokenSignals :=
  { liquidity := 1000, verified := true, buy_tax := 0, sell_tax := 0,
    is_honeypot := false, lp_lock_days := 365, wallet_age_hours := 24,
    suspicious_source := false, has_rug_history := false,
    has_community := false, from_cex := false, top10_holders_percent := 50 }

/-- C4 counterexample: liquidity 1000 is below 5,000, yet the scorer adds
nothing and records no "low liquidity" reason — the score is 0 with an
empty reason list, and raising liquidity to 1,000,000 changes nothing. -/
theorem liquidity_ignored_counterexample :
    calculate_risk_score lowLiquidityBundle = 0 ∧
    risk_reasons lowLiquidityBundle = [] ∧
    calculate_risk_score { lowLiquidityBundle with liquidity := 1000000 } =
      calculate_risk_score lowLiquidityBundle := by
  refine ⟨?_, ?_, rfl⟩
  · norm_num [calculate_risk_score, risk_eval, check_tax_rate,
      check_contract_verified, check_honeypot, check_lp_lock, check_wallet_age,
      check_fund_source, check_deployer_history, check_verified_community,
      check_cex_source, check_holder_distribution, lowLiquidityBundle]
  · norm_num [risk_reasons, risk_eval, check_tax_rate,
      check_contract_verified, check_honeypot, check_lp_lock, check_wallet_age,
      check_fund_source, check_deployer_history, check_verified_community,
      check_cex_source, check_holder_distribution, lowLiquidityBundle]

/-- C4 (amended): the risk scorer never consults liquidity — score and
reasons are unchanged under any substitution of the liquidity field. -/
theorem liquidity_not_scored (t : TokenSignals) (l : ℚ) :
    risk_eval { t with liquidity := l } = risk_eval t ∧
    calculate_risk_score { t with liquidity := l } = calculate_risk_score t :=
  ⟨rfl, rfl⟩

/-- The low-liquidity bundle with the honeypot flag raised. -/
def honeypotBundle : TokenSignals := { lowLiquidityBundle with is_honeypot := true }

/-- C5 counterexample: a bundle whose only firing signal is the honeypot
flag scores 5, not the claimed default 8. -/
theorem honeypot_weight_counterexample :
    calculate_risk_score honeypotBundle = 5 ∧
    calculate_risk_score honeypotBundle ≠ 8 := by
  have h : calculate_risk_score honeypotBundle = 5 := by
    norm_num [calculate_risk_score, risk_eval, check_tax_rate,
      check_contract_verified, check_honeypot, check_lp_lock, check_wallet_age,
      check_fund_source, check_deployer_history, check_verified_community,
      check_cex_source, check_holder_distribution, honeypotBundle,
      lowLiquidityBundle]
  refine ⟨h, ?_⟩
  rw [h]
  norm_num

/-- C5 (amended): a true honeypot flag contributes exactly +5 to the
pre-clamp score (there is no configuration profile) and appends the
honeypot reason. -/
theorem honeypot_adds_five (t : TokenSignals) (h : t.is_honeypot = true) :
    (risk_eval t).1 = (risk_eval { t with is_honeypot := false }).1 + 5 ∧
    "🚫 Honeypot检测失败" ∈ (risk_eval t).2 := by
  constructor
  · simp only [risk_eval, check_tax_rate, check_contract_verified,
      check_honeypot, check_lp_lock, check_wallet_age, check_fund_source,
      check_deployer_history, check_verified_community, check_cex_source,
      check_holder_distribution, h]
    simp only [if_true, if_false, Bool.false_eq_true]
    ring
  · simp [risk_eval, check_honeypot, h]

/-- Witness for `honeypot_adds_five` at the concrete honeypot bundle. -/
theorem honeypot_adds_five_witness :
    (risk_eval honeypotBundle).1 =
      (risk_eval { honeypotBundle with is_honeypot := false }).1 + 5 ∧
    "🚫 Honeypot检测失败" ∈ (risk_eval honeypotBundle).2 :=
  honeypot_adds_five honeypotBundle rfl

/-- C6: every signal bundle scores at least 0: the final clamp
`max(risk_score, 0)` is a lower bound whatever the signals. -/
theorem risk_score_nonneg (t : TokenSignals) : 0 ≤ calculate_risk_score t :=
  le_max_right _ _


/-! ## Bounded history (C7) -/

/-- A raw upsert argument triple `(price, liquidity, now)` and the
`price_history` entry it becomes. -/
def mkSample (q : ℚ × ℚ × ℚ) : PriceSample :=
  { timestamp := q.2.2, price := q.1, liquidity := q.2.1 }

/-- A sequence of `record_token_price` calls for one token, in order. -/
def upsertMany (store : Store) (token_address symbol : String)
    (samples : List (ℚ × ℚ × ℚ)) : Store :=
  samples.foldl
    (fun s q => (record_token_price s token_address symbol q.1 q.2.1 q.2.2).2)
    store

theorem trimHist_eq_lastN (l : List PriceSample) : trimHist l = lastN 100 l := by
  unfold trimHist lastN
  split
  · rfl
  · rw [show l.length - 100 = 0 by omega, List.drop_zero]

theorem lastN_append_lastN {α : Type} (n : ℕ) (xs ys : List α) :
    lastN n (lastN n xs ++ ys) = lastN n (xs ++ ys) := by
  unfold lastN
  rw [← List.drop_append_of_le_length (by omega : xs.length - n ≤ xs.length)]
  rw [List.drop_drop]
  congr 1
  simp only [List.length_drop, List.length_append]
  omega

theorem upsertMany_price_history (qs : List (ℚ × ℚ × ℚ)) (store : Store)
    (token_address symbol : String) (td : TokenRecord) (hist : List PriceSample)
    (hl : lookupEntry store token_address = some td)
    (hh : td.price_history = lastN 100 hist) :
    ∃ td2, lookupEntry (upsertMany store token_address symbol qs) token_address = some td2 ∧
      td2.price_history = lastN 100 (hist ++ qs.map mkSample) := by
  induction qs generalizing store td hist with
  | nil => exact ⟨td, by simpa [upsertMany] using hl, by simpa using hh⟩
  | cons q qs ih =>
      have hstep : upsertMany store token_address symbol (q :: qs) =
          upsertMany
            (setEntry store token_address
              (record_token_price store token_address symbol q.1 q.2.1 q.2.2).1)
            token_address symbol qs := rfl
      rw [hstep]
      refine ih _ _ (hist ++ [mkSample q]) (lookupEntry_setEntry_self _ _ _) ?_ |>.imp
        (fun td2 h => ⟨h.1, by rw [h.2]; congr 1; simp⟩)
      have h1 : (record_token_price store token_address symbol q.1 q.2.1 q.2.2).1.price_history
          = trimHist (td.price_history ++ [mkSample q]) := by
        simp [record_token_price, hl, mkSample]
      rw [h1, hh, trimHist_eq_lastN, lastN_append_lastN]

/-- C7: after `H + 5 = 105` upserts for one token, its `price_history` has
length exactly `H = 100` (the hard-coded cap) and consists of exactly the
100 most recent samples in insertion order: the first five were evicted. -/
theorem bounded_history (token_address symbol : String)
    (samples : List (ℚ × ℚ × ℚ)) (h : samples.length = 105) :
    ∃ td, lookupEntry (upsertMany [] token_address symbol samples) token_address = some td ∧
      td.price_history.length = 100 ∧
      td.price_history = (samples.map mkSample).drop 5 := by
  match samples, h with
  | q :: qs, h =>
    have h1 : (record_token_price [] token_address symbol q.1 q.2.1 q.2.2).1.price_history
        = lastN 100 [mkSample q] := by
      simp [record_token_price, lookupEntry, trimHist, lastN, mkSample]
    have hstep : upsertMany [] token_address symbol (q :: qs) =
        upsertMany
          (setEntry [] token_address
            (record_token_price [] token_address symbol q.1 q.2.1 q.2.2).1)
          token_address symbol qs := rfl
    obtain ⟨td, hl, hh⟩ := upsertMany_price_history qs _ token_address symbol _
      [mkSample q] (lookupEntry_setEntry_self _ _ _) h1
    rw [hstep]
    refine ⟨td, hl, ?_, ?_⟩
    · rw [hh]
      unfold lastN
      simp only [List.length_drop, List.length_append, List.length_map,
        List.length_cons]
      simp at h
      omega
    · rw [hh]
      unfold lastN
      simp only [List.length_append, List.length_map, List.length_cons]
      have h2 : [mkSample q] ++ qs.map mkSample = (q :: qs).map mkSample := by simp
      rw [h2]
      congr 1
      simp at h ⊢
      omega

/-- Witness for `bounded_history`: 105 identical upserts. -/
theorem bounded_history_witness :
    ∃ td, lookupEntry
        (upsertMany [] "0xT" "TKN" (List.replicate 105 ((1:ℚ), (1:ℚ), (1:ℚ)))) "0xT"
        = some td ∧
      td.price_history.length = 100 ∧
      td.price_history =
        ((List.replicate 105 ((1:ℚ), (1:ℚ), (1:ℚ))).map mkSample).drop 5 :=
  bounded_history "0xT" "TKN" _ (by simp)


/-! ## Return calculator (C8, C10) -/

/-- A ledger with one token observed at price 1 and then at price 1.5. -/
def fiftyPctStore : Store :=
  (record_token_price (record_token_price [] "0xB" "BBB" 1 100 0).2
    "0xB" "BBB" (3/2) 100 1).2

/-- The record `fiftyPctStore` holds for `"0xB"`. -/
def fiftyPctRecord : TokenRecord :=
  (record_token_price (record_token_price [] "0xB" "BBB" 1 100 0).2
    "0xB" "BBB" (3/2) 100 1).1

/-- A ledger with one token observed at price 3 and then at price 4. -/
def roundingStore : Store :=
  (record_token_price (record_token_price [] "0xA" "AAA" 3 1000 0).2
    "0xA" "AAA" 4 1000 1).2

/-- The record `roundingStore` holds for `"0xA"`. -/
def roundingRecord : TokenRecord :=
  (record_token_price (record_token_price [] "0xA" "AAA" 3 1000 0).2
    "0xA" "AAA" 4 1000 1).1

/-- C8 counterexample: with `initial_price = 3` and `current_price = 4`,
`calculate_returns` reports `total_return = 33.33`, the exact percentage
rounded to two decimals, not `(4 - 3) / 3 * 100` itself. -/
theorem returns_rounded_counterexample :
    (calculate_returns roundingStore "0xA" 1).1.map ReturnsDict.total_return
      = some (3333/100) ∧
    (3333/100 : ℚ) ≠ ((4 - 3) / 3) * 100 := by
  constructor
  · have hl : lookupEntry roundingStore "0xA" = some roundingRecord :=
      lookupEntry_setEntry_self _ _ _
    have hip : roundingRecord.initial_price = 3 := rfl
    have hcp : roundingRecord.current_price = 4 := rfl
    simp only [calculate_returns, hl, hip, hcp]
    rw [if_neg (by norm_num : ¬ (3 : ℚ) = 0)]
    simp only [Option.map_some]
    norm_num [round2, pyRound]
  · norm_num

/-- C8 (amended): for a known record with positive `initial_price`,
`calculate_returns` yields `total_return = round2((cp - ip) / ip * 100)`
(the exact percentage rounded to two decimals, Python `round`) and
`price_multiple = cp / ip` exactly, leaving the store unchanged; the result
is empty when the record is absent or `initial_price` is zero; and
`initial_price = 1`, `current_price = 1.5` give 50.0 and 1.5. -/
theorem returns_formula :
    (∀ (store : Store) (token_address : String) (now : ℚ) (td : TokenRecord),
        lookupEntry store token_address = some td → 0 < td.initial_price →
        ∃ r, calculate_returns store token_address now = (some r, store) ∧
          r.total_return =
            round2 (((td.current_price - td.initial_price) / td.initial_price) * 100) ∧
          r.price_multiple = td.current_price / td.initial_price)
    ∧ (∀ (store : Store) (token_address : String) (now : ℚ),
        lookupEntry store token_address = none →
        calculate_returns store token_address now = (none, store))
    ∧ (∀ (store : Store) (token_address : String) (now : ℚ) (td : TokenRecord),
        lookupEntry store token_address = some td → td.initial_price = 0 →
        calculate_returns store token_address now = (none, store))
    ∧ (∃ r, (calculate_returns fiftyPctStore "0xB" 1).1 = some r ∧
        r.total_return = 50 ∧ r.price_multiple = 3/2) := by
  have main : ∀ (store : Store) (token_address : String) (now : ℚ) (td : TokenRecord),
      lookupEntry store token_address = some td → 0 < td.initial_price →
      ∃ r, calculate_returns store token_address now = (some r, store) ∧
        r.total_return =
          round2 (((td.current_price - td.initial_price) / td.initial_price) * 100) ∧
        r.price_multiple = td.current_price / td.initial_price := by
    intro store token_address now td hl hpos
    simp only [calculate_returns, hl, if_neg hpos.ne', if_pos hpos]
    exact ⟨_, rfl, rfl, rfl⟩
  refine ⟨main, fun store token_address now h => ?_, fun store token_address now td hl h0 => ?_, ?_⟩
  · simp only [calculate_returns, h]
  · simp only [calculate_returns, hl, if_pos h0]
  · have hl : lookupEntry fiftyPctStore "0xB" = some fiftyPctRecord :=
      lookupEntry_setEntry_self _ _ _
    have hip : fiftyPctRecord.initial_price = 1 := rfl
    have hcp : fiftyPctRecord.current_price = 3/2 := rfl
    obtain ⟨r, hr, htot, hmul⟩ := main fiftyPctStore "0xB" 1 fiftyPctRecord hl
      (by rw [hip]; norm_num)
    refine ⟨r, by rw [hr], ?_, ?_⟩
    · rw [htot, hip, hcp]
      norm_num [round2, pyRound]
    · rw [hmul, hip, hcp]
      norm_num

/-- C10: asking about an address the ledger does not hold returns the empty
result for `calculate_returns` and the empty list for
`get_price_alerts_sent`, in both cases leaving the stored data untouched. -/
theorem unknown_token_safe (store : Store) (token_address : String) (now : ℚ)
    (h : lookupEntry store token_address = none) :
    calculate_returns store token_address now = (none, store) ∧
    get_price_alerts_sent store token_address = ([], store) := by
  unfold calculate_returns get_price_alerts_sent
  rw [h]
  exact ⟨rfl, rfl⟩

/-- Witness for `unknown_token_safe` on the empty ledger. -/
theorem unknown_token_safe_witness :
    calculate_returns [] "0xNONE" 0 = (none, []) ∧
    get_price_alerts_sent [] "0xNONE" = ([], []) :=
  unknown_token_safe [] "0xNONE" 0 rfl

end SniperMonitor
